import Mathlib

/-!
Shallow embedding of the hazard-news dashboard (src/app.py) and proofs of the
claims of the spec about its filter → aggregate → render pipeline.

The embedded program is the callback `update_dashboard` together with the
one-time ingestion at module load.  Pandas datetimes are modelled as POSIX
timestamps in seconds (`Nat`); the date-picker values are calendar days
(days since the epoch), which `pd.to_datetime` turns into the midnight
timestamp of that day.

On the two `sort_values(..., ascending=False)` calls of the script (lines
159 and 181): they run with the pandas default quicksort kind, which is
deterministic but carries no stability guarantee — pandas documents only
the mergesort/stable kinds as stable — so the program fixes no particular
order among tied keys.  The model renders each of these sorts as a stable
`List.insertionSort`, i.e. it picks one representative of the orderings
the program may produce.  No theorem below relies on the tie order of
these definitions, with one deliberate exception: the C5 counterexample
evaluates the ranking at a two-group input, where the numpy quicksort is
below its insertion-sort cutoff and provably behaves stably, so model and
program agree on that concrete output.
-/

namespace NewsDashboard

/-- Article row as it sits in the global dataframe after ingestion
(src/app.py lines 7-10): `to_datetime` with coercion followed by `dropna` on
publish_date, category, counties and media leaves those four columns present
in every stored row, so they are total fields here.  `publish_date` is a
POSIX timestamp in seconds (a pandas datetime carries a time of day). -/
structure Article where
  publish_date : Nat
  category : String
  counties : String
  media : String
  title : String
  url : String
deriving Repr, DecidableEq

/-- Raw CSV row before ingestion: the four columns the script drops NaNs on
are optional here (`to_datetime(errors="coerce")` turns unparseable dates
into NaT, i.e. `none`). -/
structure RawArticle where
  publish_date : Option Nat
  category : Option String
  counties : Option String
  media : Option String
  title : String
  url : String

/-- Ingestion (src/app.py lines 8-9): a raw row survives the `dropna` iff
publish_date, category, counties and media are all present; hence the
Dataset Store contains no row with an absent publish date. -/
def ingest (raws : List RawArticle) : List Article :=
  raws.filterMap fun r =>
    match r.publish_date, r.category, r.counties, r.media with
    | some d, some c, some co, some m =>
        some { publish_date := d, category := c, counties := co, media := m,
               title := r.title, url := r.url }
    | _, _, _, _ => none

/-- Seconds in a day, used for the `dt.date` truncation of line 10. -/
def secondsPerDay : Nat := 86400

/-- Column `publish_date_only` (line 10): `dt.date` truncates the timestamp
to its calendar day. -/
def publish_date_only (r : Article) : Nat := r.publish_date / secondsPerDay

/-- Value of `pd.to_datetime` applied to a date picker `YYYY-MM-DD` value
(lines 137-138): midnight, i.e. the first second, of the selected day. -/
def dateToTimestamp (day : Nat) : Nat := day * secondsPerDay

/-- Lines 129-139: start from a copy of the dataframe, apply the category
`isin` filter when that selection is truthy (Python: neither `None` nor the
empty list, both modelled as `[]`), the county `isin` filter likewise, and
the inclusive date-range filter only when both picker values are truthy. -/
def filter_subset (df : List Article) (selected_categories selected_counties : List String)
    (start_date end_date : Option Nat) : List Article :=
  let f1 := if selected_categories.isEmpty then df
    else df.filter fun r => decide (r.category ∈ selected_categories)
  let f2 := if selected_counties.isEmpty then f1
    else f1.filter fun r => decide (r.counties ∈ selected_counties)
  match start_date, end_date with
  | some s, some e =>
      f2.filter fun r =>
        decide (dateToTimestamp s ≤ r.publish_date) &&
          decide (r.publish_date ≤ dateToTimestamp e)
  | _, _ => f2

/-- Membership in one `isin` stage of the filter: a row passes the stage iff
it was in the incoming frame and the selection is empty or contains the
field value of the row. -/
theorem mem_isin_stage {l : List Article} {sel : List String} {f : Article → String}
    {r : Article} :
    (r ∈ if sel = [] then l else l.filter fun x => decide (f x ∈ sel)) ↔
      r ∈ l ∧ (sel = [] ∨ f r ∈ sel) := by
  by_cases h : sel = []
  · subst h
    simp
  · simp only [if_neg h, List.mem_filter, decide_eq_true_eq]
    constructor
    · rintro ⟨hl, hm⟩
      exact ⟨hl, Or.inr hm⟩
    · rintro ⟨hl, hm | hm⟩
      · exact absurd hm h
      · exact ⟨hl, hm⟩

/-- Characterisation of membership in the filtered subset: the conjunction
of the three per-dimension clauses, with membership within a dimension and
the date dimension unrestricted unless both bounds are present. -/
theorem mem_filter_subset {df : List Article} {cats cnts : List String}
    {sd ed : Option Nat} {r : Article} :
    r ∈ filter_subset df cats cnts sd ed ↔
      r ∈ df ∧ (cats = [] ∨ r.category ∈ cats) ∧ (cnts = [] ∨ r.counties ∈ cnts) ∧
        ((sd = none ∨ ed = none) ∨
          ∃ s e, sd = some s ∧ ed = some e ∧
            dateToTimestamp s ≤ r.publish_date ∧ r.publish_date ≤ dateToTimestamp e) := by
  unfold filter_subset
  rcases sd with _ | s <;> rcases ed with _ | e
  all_goals simp only [List.mem_filter, Bool.and_eq_true, decide_eq_true_eq,
    List.isEmpty_iff, mem_isin_stage, and_assoc]
  · simp
  · simp
  · simp
  ·
    constructor
    · rintro ⟨h1, h2, h3, h4, h5⟩
      exact ⟨h1, h2, h3, Or.inr ⟨s, e, rfl, rfl, h4, h5⟩⟩
    · rintro ⟨h1, h2, h3, (hn | hn) | ⟨s2, e2, hs, he, h4, h5⟩⟩
      · exact absurd hn (by simp)
      · exact absurd hn (by simp)
      · cases hs; cases he; exact ⟨h1, h2, h3, h4, h5⟩

/-- C1: a row appears in the filtered subset iff it is a dataset row and
satisfies (categories empty OR its category selected) AND (counties empty OR
its county selected) AND (a date bound missing OR dateFrom ≤ publish date
≤ dateTo, both ends inclusive, the bounds taken at midnight of the selected
days): AND across dimensions, membership (OR) within a dimension. -/
theorem filter_membership_characterization (df : List Article)
    (cats cnts : List String) (sd ed : Option Nat) (r : Article) :
    r ∈ filter_subset df cats cnts sd ed ↔
      r ∈ df ∧ (cats = [] ∨ r.category ∈ cats) ∧ (cnts = [] ∨ r.counties ∈ cnts) ∧
        ((sd = none ∨ ed = none) ∨
          ∃ s e, sd = some s ∧ ed = some e ∧
            dateToTimestamp s ≤ r.publish_date ∧ r.publish_date ≤ dateToTimestamp e) :=
  mem_filter_subset

/-- C3: with empty category and county selections and no active date bounds
the filter is the identity on the dataset. -/
theorem identity_filter (df : List Article) :
    filter_subset df [] [] none none = df := rfl

/-- C4: when exactly one date bound is present the date dimension is treated
as unrestricted; the pass filters exactly as if no date bound were set, so
no row is excluded on account of its publish date. -/
theorem single_date_bound_unrestricted (df : List Article)
    (cats cnts : List String) (s e : Nat) :
    filter_subset df cats cnts (some s) none = filter_subset df cats cnts none none ∧
      filter_subset df cats cnts none (some e) = filter_subset df cats cnts none none :=
  ⟨rfl, rfl⟩

/-- Number of distinct values of a column (`Series.nunique`, lines 142 and
158); the modelled columns contain no nulls after ingestion. -/
def nunique (l : List String) : Nat := l.dedup.length

/-- Descending-count order used by `sort_values(..., ascending=False)` on a
(key, count) table; the model sorts by this relation with a representative
tie order, see the header note. -/
def descCount (a b : String × Nat) : Prop := b.2 ≤ a.2

instance : DecidableRel descCount := fun a b => inferInstanceAs (Decidable (b.2 ≤ a.2))

instance : IsTrans (String × Nat) descCount := ⟨fun _ _ _ h1 h2 => le_trans h2 h1⟩

instance : IsTotal (String × Nat) descCount := ⟨fun a b => le_total b.2 a.2⟩

/-- Model of `Series.value_counts` (line 146): one (value, count) pair per distinct
value of the column, sorted by count descending.  The claims rely only on
the multiset of pairs, so the base key order used here is that of `List.dedup`. -/
def value_counts (l : List String) : List (String × Nat) :=
  List.insertionSort descCount (l.dedup.map fun k => (k, l.count k))

/-- Ascending key order of a pandas `groupby` (its default `sort=True`):
Python compares strings lexicographically by code point, which is the
lexicographic order on the character list `String.data`. -/
def ascKey (a b : String) : Prop := a.data ≤ b.data

instance : DecidableRel ascKey := fun a b => inferInstanceAs (Decidable (a.data ≤ b.data))

instance : IsTrans String ascKey := ⟨fun _ _ _ => le_trans⟩

instance : IsTotal String ascKey := ⟨fun a b => le_total a.data b.data⟩

/-- Line 158: `groupby("counties")["media"].nunique()`: one row per distinct
county, keys in ascending order, each carrying the number of distinct
medias within the group. -/
def county_groups (subset : List Article) : List (String × Nat) :=
  (List.insertionSort ascKey (subset.map (·.counties)).dedup).map
    fun k => (k, nunique ((subset.filter fun r => r.counties == k).map (·.media)))

/-- Line 159: sort the county groups by unique-media count descending and
keep the first 10 rows (`head(10)`).  The program sort is the unstable
pandas default quicksort; the model fixes a representative tie order
(header note), and only tie-order-invariant facts are claimed of this
definition, apart from the C5 counterexample evaluated below the numpy
insertion-sort cutoff where quicksort is stable. -/
def county_media_counts (subset : List Article) : List (String × Nat) :=
  (List.insertionSort descCount (county_groups subset)).take 10

/-- Ascending order on the (day, county) group keys of line 169. -/
def ascDayCounty (a b : Nat × String) : Prop :=
  a.1 < b.1 ∨ (a.1 = b.1 ∧ ascKey a.2 b.2)

instance : DecidableRel ascDayCounty :=
  fun _ _ => inferInstanceAs (Decidable (_ ∨ _))

/-- Line 169: `groupby(["publish_date_only", "counties"]).size()`: one row
per (day, county) pair present in the subset, in ascending key order, with
the row count of the group. -/
def line_data (subset : List Article) : List (Nat × String × Nat) :=
  (List.insertionSort ascDayCounty
      (subset.map fun r => (publish_date_only r, r.counties)).dedup).map
    fun k => (k.1, k.2,
      (subset.filter fun r => publish_date_only r == k.1 && r.counties == k.2).length)

/-- Descending publish-date order of the table sort (line 181). -/
def descDate (a b : Article) : Prop := b.publish_date ≤ a.publish_date

instance : DecidableRel descDate := fun _ _ => inferInstanceAs (Decidable (_ ≤ _))

instance : IsTrans Article descDate := ⟨fun _ _ _ h1 h2 => le_trans h2 h1⟩

instance : IsTotal Article descDate := ⟨fun a b => le_total b.publish_date a.publish_date⟩

/-- Line 181: `sort_values("publish_date", ascending=False)`.  The program
sort is the unstable pandas default quicksort; the model fixes a
representative tie order (header note), and only tie-order-invariant facts
(row multiset, length, date sortedness) are claimed of this definition. -/
def sort_by_date_desc (subset : List Article) : List Article :=
  List.insertionSort descDate subset

/-- Gregorian calendar date (year, month, day) of a day number counted from
1970-01-01. -/
def civilFromDays (z : Nat) : Nat × Nat × Nat :=
  let days := z + 719468
  let era := days / 146097
  let doe := days % 146097
  let yoe := (doe - doe / 1460 + doe / 36524 - doe / 146096) / 365
  let y := yoe + era * 400
  let doy := doe - (365 * yoe + yoe / 4 - yoe / 100)
  let mp := (5 * doy + 2) / 153
  let d := doy - (153 * mp + 2) / 5 + 1
  let m := if mp < 10 then mp + 3 else mp - 9
  (if m ≤ 2 then y + 1 else y, m, d)

/-- Two-digit zero padding for months and days. -/
def pad2 (n : Nat) : String := if n < 10 then "0" ++ toString n else toString n

/-- Line 182: `dt.strftime("%Y-%m-%d")` applied to a timestamp. -/
def strftime_ymd (ts : Nat) : String :=
  let ymd := civilFromDays (ts / secondsPerDay)
  toString ymd.1 ++ "-" ++ pad2 ymd.2.1 ++ "-" ++ pad2 ymd.2.2

/-- Lines 183-185: the markdown title link `[title](url)`. -/
def title_link (r : Article) : String :=
  "[" ++ r.title ++ "](" ++ r.url ++ ")"

/-- One record of the `to_dict("records")` table payload (lines 186-188). -/
structure TableRow where
  publish_date : String
  title_link : String
  counties : String
  category : String
  media : String
deriving Repr, DecidableEq

/-- Lines 181-188: sort the subset by date descending, format the date,
derive the title link, and project the five table columns. -/
def table_data (subset : List Article) : List TableRow :=
  (sort_by_date_desc subset).map fun r =>
    { publish_date := strftime_ymd r.publish_date, title_link := title_link r,
      counties := r.counties, category := r.category, media := r.media }

/-- The atomic bundle one callback pass publishes (line 190); each plotly
figure is represented by the dataframe handed to it. -/
structure Bundle where
  media_text : String
  pie : List (String × Nat)
  line : List (Nat × String × Nat)
  bar : List (String × Nat)
  table : List TableRow
deriving Repr, DecidableEq

/-- The callback `update_dashboard` (lines 128-190). -/
def update_dashboard (df : List Article) (selected_categories selected_counties : List String)
    (start_date end_date : Option Nat) : Bundle :=
  let filtered := filter_subset df selected_categories selected_counties start_date end_date
  { media_text :=
      "Number of unique news medias: " ++ toString (nunique (filtered.map (·.media)))
    pie := county_media_counts filtered
    line := line_data filtered
    bar := value_counts (filtered.map (·.category))
    table := table_data filtered }

/-- One orchestrator pass with the module-level dataframe threaded as state:
the callback reads the global `df`, copies it (line 129), and mutates only
copies (lines 181-185 run on a fresh `.copy()`), never assigning the
global, so the pass returns the store unchanged alongside the bundle. -/
def run_pass (df : List Article) (selected_categories selected_counties : List String)
    (start_date end_date : Option Nat) : Bundle × List Article :=
  (update_dashboard df selected_categories selected_counties start_date end_date, df)

/-- Sum of the value-counts table equals the length of the counted column. -/
theorem value_counts_sum (l : List String) :
    ((value_counts l).map Prod.snd).sum = l.length := by
  have hperm : List.Perm (value_counts l) (l.dedup.map fun k => (k, l.count k)) :=
    List.perm_insertionSort _ _
  have h2 := (hperm.map Prod.snd).sum_eq
  rw [h2, List.map_map]
  simpa using List.sum_map_count_dedup_eq_length l

/-- C2: all published views describe the same filtered subset: the category
counts of the bar chart sum to its size, which is also the number of rows
in the table output produced in the same pass. -/
theorem views_same_subset (df : List Article) (cats cnts : List String)
    (sd ed : Option Nat) :
    (((update_dashboard df cats cnts sd ed).bar.map Prod.snd).sum =
        (filter_subset df cats cnts sd ed).length) ∧
      (update_dashboard df cats cnts sd ed).table.length =
        (filter_subset df cats cnts sd ed).length := by
  constructor
  · simpa [update_dashboard] using
      value_counts_sum ((filter_subset df cats cnts sd ed).map (·.category))
  · simp [update_dashboard, table_data, sort_by_date_desc]

/-- C7: when the filtered subset is empty every published output is the
empty or zero result; the pass is a total function of its inputs, so it
completes without raising. -/
theorem empty_subset_zero_outputs (df : List Article) (cats cnts : List String)
    (sd ed : Option Nat)
    (h : filter_subset df cats cnts sd ed = []) :
    nunique ((filter_subset df cats cnts sd ed).map (·.media)) = 0 ∧
      (update_dashboard df cats cnts sd ed).media_text =
        "Number of unique news medias: 0" ∧
      (update_dashboard df cats cnts sd ed).bar = [] ∧
      (update_dashboard df cats cnts sd ed).pie = [] ∧
      (update_dashboard df cats cnts sd ed).line = [] ∧
      (update_dashboard df cats cnts sd ed).table = [] := by
  refine ⟨?_, ?_, ?_, ?_, ?_, ?_⟩ <;>
    · simp only [update_dashboard, h, nunique, value_counts, county_media_counts,
        county_groups, line_data, table_data, sort_by_date_desc, List.insertionSort,
        List.map_nil, List.dedup_nil, List.take_nil, List.length_nil]
      try decide

def c7row : Article :=
  { publish_date := 86400, category := "flood", counties := "Kent",
    media := "BBC", title := "t", url := "u" }

/-- Witness for C7 at a one-row dataset whose category is filtered away. -/
theorem empty_subset_zero_outputs_witness :
    filter_subset [c7row] ["storm"] [] none none = [] ∧
      (update_dashboard [c7row] ["storm"] [] none none).table = [] := by
  have h : filter_subset [c7row] ["storm"] [] none none = [] := by decide
  exact ⟨h, (empty_subset_zero_outputs [c7row] ["storm"] [] none none h).2.2.2.2.2⟩

/-- C8: with an unchanged dataset store, running the pass twice with
identical inputs publishes identical bundles (the second pass runs on the
store state the first pass leaves behind). -/
theorem pipeline_two_runs_identical (df : List Article) (cats cnts : List String)
    (sd ed : Option Nat) :
    (run_pass df cats cnts sd ed).1 =
      (run_pass (run_pass df cats cnts sd ed).2 cats cnts sd ed).1 := rfl

/-- C9: a pass leaves the global dataset store unchanged: the callback works
on copies (lines 129 and 181) and never writes the global dataframe, so
every row and field of the store is as before the pass. -/
theorem pass_leaves_store_unchanged (df : List Article) (cats cnts : List String)
    (sd ed : Option Nat) :
    (run_pass df cats cnts sd ed).2 = df := rfl

/-- C10: the date bounds are compared as midnight timestamps of the selected
days, so a row published on the dateTo calendar day but strictly after
midnight is excluded by an active date filter even though its calendar date
equals dateTo. -/
theorem dateTo_midnight_excludes_same_day (df : List Article)
    (cats cnts : List String) (s e : Nat) (r : Article)
    (hday : publish_date_only r = e) (hpos : 0 < r.publish_date % secondsPerDay) :
    r ∉ filter_subset df cats cnts (some s) (some e) := by
  intro hmem
  rcases (mem_filter_subset.mp hmem).2.2.2 with (hn | hn) | ⟨s2, e2, hs, he, -, hub⟩
  · exact Option.noConfusion hn
  · exact Option.noConfusion hn
  · cases hs; cases he
    have hday2 : r.publish_date / secondsPerDay = e := hday
    rw [dateToTimestamp] at hub
    have h86 : secondsPerDay = 86400 := rfl
    rw [h86] at hday2 hpos hub
    omega

def c10row : Article :=
  { publish_date := 90000, category := "flood", counties := "Kent",
    media := "BBC", title := "t", url := "u" }

/-- Witness for C10: a 01:00 timestamp on day 1 is excluded by the active
filter dateFrom = day 0, dateTo = day 1. -/
theorem dateTo_midnight_excludes_same_day_witness :
    publish_date_only c10row = 1 ∧ 0 < c10row.publish_date % secondsPerDay ∧
      c10row ∉ filter_subset [c10row] [] [] (some 0) (some 1) :=
  ⟨by decide, by decide,
    dateTo_midnight_excludes_same_day [c10row] [] [] 0 1 c10row (by decide) (by decide)⟩

/-- C5 (amended): the top-10 county ranking has length at most 10, its
unique-media counts are non-increasing from first to last, and repeated
evaluation on the same subset gives the same output.  These properties hold
for every output the descending count sort may produce, whatever order it
leaves tied counts in, so they are proved on the representative tie order
the model fixes.  No tie order is asserted here: line 159 sorts with the
pandas default quicksort kind, which guarantees none. -/
theorem topn_ranking_props (subset : List Article) :
    (county_media_counts subset).length ≤ 10 ∧
      (county_media_counts subset).Pairwise (fun a b => b.2 ≤ a.2) ∧
      county_media_counts subset = county_media_counts subset := by
  refine ⟨List.length_take_le _ _, ?_, rfl⟩
  have hs : (List.insertionSort descCount (county_groups subset)).Pairwise descCount :=
    List.sorted_insertionSort descCount _
  exact hs.sublist (List.take_sublist _ _)

/-- Modelled from the spec: `TopNRanking` over the county/unique-media
groups with the tie-break the spec mandates, first occurrence order of the
key in the subset (spec 4.3) — the group table is built in first-occurrence
key order and then stably sorted by count descending and truncated to 10. -/
def topn_first_occurrence (subset : List Article) : List (String × Nat) :=
  (List.insertionSort descCount
      ((subset.map (·.counties)).eraseDups.map
        fun k => (k, nunique ((subset.filter fun r => r.counties == k).map (·.media))))).take 10

def c5rowB : Article :=
  { publish_date := 0, category := "flood", counties := "Berkshire",
    media := "BBC", title := "b", url := "ub" }

def c5rowA : Article :=
  { publish_date := 0, category := "fire", counties := "Avon",
    media := "ITV", title := "a", url := "ua" }

def c5subset : List Article := [c5rowB, c5rowA]

/-- Counterexample for C5 as stated: with tied counts, the code emits the
counties in ascending key order from the groupby ("Avon" before
"Berkshire"), while the first occurrence order of the keys in the subset is
"Berkshire" before "Avon".  At this two-group input the evaluation matches
the program exactly: below the numpy insertion-sort cutoff the default
quicksort kind behaves stably, so the model and the code agree here. -/
theorem topn_tiebreak_counterexample :
    county_media_counts c5subset = [("Avon", 1), ("Berkshire", 1)] ∧
      topn_first_occurrence c5subset = [("Berkshire", 1), ("Avon", 1)] ∧
      county_media_counts c5subset ≠ topn_first_occurrence c5subset := by
  refine ⟨?_, ?_, ?_⟩ <;> decide

end NewsDashboard
